import Mathlib

/-!
Shallow embedding of the solar data acquisition and normalization pipeline
of `src/streamlit_app.py`.

Python floats are modelled as rationals (ℚ).  JSON payload fields that the
code reads through `dict.get` with a default are modelled as `Option`
values, where `none` stands for an absent (or non-numeric) key and
`Option.getD` mirrors the Python default.  An HTTP round trip is modelled
by the `HttpResult` type: either the request returned with a status code
and a parsed body, or some exception was raised (caught by the bare
`except` blocks in the source).  UI rendering, charts and the
`datetime.now()` timestamps stored in `metadata` are outside the
embedding.
-/

/-- Outcome of one `requests.get` call (plus body parsing where the code
parses it): the request returned a status code and a body, or an exception
was raised somewhere in the `try` block. -/
inductive HttpResult (α : Type) where
  | ok (status : Nat) (body : α)
  | exn (msg : String)
deriving Repr, DecidableEq

namespace SolarCalculator

/-- The Python default argument `efficiency: float = 0.20` of
`SolarCalculator.calculate_energy_production`. -/
def defaultEfficiency : ℚ := 20 / 100

/-- `SolarCalculator.calculate_energy_production` (src/streamlit_app.py
lines 272-286): returns `irradiance * area * efficiency`, with no input
validation of any kind. -/
def calculate_energy_production (irradiance area efficiency : ℚ) : ℚ :=
  irradiance * area * efficiency

/-- `SolarCalculator.calculate_peak_sun_hours` (lines 288-292): the
identity on daily irradiance. -/
def calculate_peak_sun_hours (daily_irradiance : ℚ) : ℚ :=
  daily_irradiance

/-- The Python default argument `watts_per_sqm: float = 200`. -/
def defaultWattsPerSqm : ℚ := 200

/-- `SolarCalculator.estimate_system_size` (lines 294-297). -/
def estimate_system_size (area watts_per_sqm : ℚ) : ℚ :=
  (area * watts_per_sqm) / 1000

end SolarCalculator

/-- The lowercase month keys iterated at src/streamlit_app.py lines 107-108. -/
def monthNames : List String :=
  ["jan", "feb", "mar", "apr", "may", "jun", "jul", "aug", "sep", "oct", "nov", "dec"]

/-- One of the `outputs.avg_dni` / `avg_ghi` / `avg_dhi` objects of the NREL
response: an optional numeric `annual` field and an optional `monthly`
mapping from month name to number.  A wholly missing object is the value
with both fields `none` (the code reads it via `.get(..., {})`). -/
structure NrelAvg where
  annual : Option ℚ
  monthly : Option (List (String × ℚ))
deriving Repr, DecidableEq

/-- `avg.get('monthly', {}).get(month, 0)` (lines 114-116). -/
def NrelAvg.monthlyGet (a : NrelAvg) (m : String) : ℚ :=
  (((a.monthly.getD []).lookup m).getD 0)

/-- The parsed body of a 200 NREL response, as far as the code reads it:
`data.get('outputs', {})` and its three average objects (lines 100-103). -/
structure NrelPayload where
  avg_dni : NrelAvg
  avg_ghi : NrelAvg
  avg_dhi : NrelAvg
deriving Repr, DecidableEq

/-- One element of the `monthly_data` list built at lines 110-117. -/
structure NrelMonthEntry where
  month : String
  month_num : Nat
  ghi : ℚ
  dni : ℚ
  dhi : ℚ
deriving Repr, DecidableEq

instance : Inhabited NrelMonthEntry := ⟨⟨"", 0, 0, 0, 0⟩⟩

/-- The `'annual'` sub-dictionary of the NREL success result (lines
121-125); each component is `avg.get('annual', 0)`. -/
structure NrelAnnual where
  ghi : ℚ
  dni : ℚ
  dhi : ℚ
deriving Repr, DecidableEq

/-- The `monthly_data` loop of `NRELApiHandler.fetch_solar_data` (lines
106-117): `for i, month in enumerate(months, 1)` appends one entry per
named month, with `month_num = i` and each attribute looked up through
`.get(month, 0)`. -/
def nrelMonthly (p : NrelPayload) : List NrelMonthEntry :=
  (List.range 12).map fun i =>
    { month := (monthNames.getD i "").capitalize
      month_num := i + 1
      ghi := p.avg_ghi.monthlyGet (monthNames.getD i "")
      dni := p.avg_dni.monthlyGet (monthNames.getD i "")
      dhi := p.avg_dhi.monthlyGet (monthNames.getD i "") }

/-- The dictionary returned by `NRELApiHandler.fetch_solar_data`:
`success` is always present; `error` is present exactly on the failure
paths; `annual`, `monthly` and `location` are present exactly on the
success path.  `metadata` (source/accuracy/timestamp) is not modelled. -/
structure NrelFetchResult where
  success : Bool
  error : Option String
  annual : Option NrelAnnual
  monthly : Option (List NrelMonthEntry)
  location : Option (ℚ × ℚ)
deriving Repr, DecidableEq

namespace NRELApiHandler

/-- `NRELApiHandler.validate_api_key` (lines 55-67): `True` iff the probe
request returned status 200; any exception yields `False`. -/
def validate_api_key : HttpResult Unit → Bool
  | .ok status _ => status == 200
  | .exn _ => false

/-- `NRELApiHandler.fetch_solar_data` (lines 81-147), as a function of the
outcome of the single HTTP request it performs.  On status 200 it builds
the success dictionary, zero-filling each missing `annual` field through
`.get('annual', 0)`; on any other status it returns the failure dictionary
with the status-code message; on an exception it returns the failure
dictionary with the exception text. -/
def fetch_solar_data (lat lon : ℚ) (response : HttpResult NrelPayload) :
    NrelFetchResult :=
  match response with
  | .ok status payload =>
    if status = 200 then
      { success := true
        error := none
        annual := some
          { ghi := payload.avg_ghi.annual.getD 0
            dni := payload.avg_dni.annual.getD 0
            dhi := payload.avg_dhi.annual.getD 0 }
        monthly := some (nrelMonthly payload)
        location := some (lat, lon) }
    else
      { success := false
        error := some ("API returned status code " ++ toString status)
        annual := none
        monthly := none
        location := none }
  | .exn msg =>
      { success := false
        error := some msg
        annual := none
        monthly := none
        location := none }

end NRELApiHandler

/-- The capitalized month names iterated at src/streamlit_app.py lines
213-214. -/
def googleMonthNames : List String :=
  ["Jan", "Feb", "Mar", "Apr", "May", "Jun", "Jul", "Aug", "Sep", "Oct", "Nov", "Dec"]

/-- One element of the `solarPotential.monthlyFlux` array of the Google
response; the code reads `flux.get('flux', 0)` and
`flux.get('daylightHours', 0)` (lines 222-223). -/
structure FluxEntry where
  flux : Option ℚ
  daylightHours : Option ℚ
deriving Repr, DecidableEq

instance : Inhabited FluxEntry := ⟨⟨none, none⟩⟩

/-- The `data.get('solarPotential', {})` object of a 200 Google response,
as far as the code reads it (lines 207-235). -/
structure SolarPotential where
  monthlyFlux : List FluxEntry
  maxArrayPanelsCount : Option ℚ
  maxArrayAreaMeters2 : Option ℚ
  maxSunshineHoursPerYear : Option ℚ
deriving Repr, DecidableEq

/-- The parsed body of a 200 Google Solar response. -/
structure GooglePayload where
  solarPotential : SolarPotential
deriving Repr, DecidableEq

/-- One element of the Google `monthly_data` list (lines 219-224). -/
structure GoogleMonthEntry where
  month : String
  month_num : Nat
  flux : ℚ
  daylight_hours : ℚ
deriving Repr, DecidableEq

instance : Inhabited GoogleMonthEntry := ⟨⟨"", 0, 0, 0⟩⟩

/-- The entry appended for index `i` of the `monthlyFlux` array: the code
reads `monthly_flux[i]` (in scope only when `i < len(monthly_flux)`, which
the caller guards) and defaults its two numeric fields to 0. -/
def googleEntry (mf : List FluxEntry) (i : Nat) : GoogleMonthEntry :=
  { month := googleMonthNames.getD i ""
    month_num := i + 1
    flux := ((mf.getD i default).flux).getD 0
    daylight_hours := ((mf.getD i default).daylightHours).getD 0 }

/-- The `monthly_data` loop of `GoogleSolarApiHandler.fetch_solar_data`
(lines 210-224): `for i, month_name in enumerate(months)` over the twelve
month names, appending an entry only when `i < len(monthly_flux)`. -/
def googleMonthly (mf : List FluxEntry) : List GoogleMonthEntry :=
  (List.range 12).filterMap fun i =>
    if i < mf.length then some (googleEntry mf i) else none

/-- The `'annual'` sub-dictionary of the Google success result (lines
231-236): `flux` is the sum of the monthly fluxes just built (line 227),
the other three fields are `.get(..., 0)` lookups. -/
structure GoogleAnnual where
  flux : ℚ
  max_array_panels : ℚ
  max_array_area : ℚ
  max_sunshine_hours : ℚ
deriving Repr, DecidableEq

/-- The dictionary returned by `GoogleSolarApiHandler.fetch_solar_data`:
`success` always present, `error` present exactly on failure, the data
fields present exactly on success.  `metadata`, `center` and
`roof_segments` (opaque pass-through values) are not modelled. -/
structure GoogleFetchResult where
  success : Bool
  error : Option String
  annual : Option GoogleAnnual
  monthly : Option (List GoogleMonthEntry)
  location : Option (ℚ × ℚ)
deriving Repr, DecidableEq

namespace GoogleSolarApiHandler

/-- `GoogleSolarApiHandler.validate_api_key` (lines 157-171): `True` iff
the probe request returned status 200 or 403 (the comment in the source
reads `403 might mean quota exceeded`); any exception yields `False`. -/
def validate_api_key : HttpResult Unit → Bool
  | .ok status _ => status == 200 || status == 403
  | .exn _ => false

/-- `GoogleSolarApiHandler.fetch_solar_data` (lines 185-267), as a
function of the outcome of its single HTTP request.  On status 200 it
builds the success dictionary; on 404 and 403 it returns the dedicated
error messages of lines 253-256, on any other status the generic
status-code message; on an exception it returns the failure dictionary
with the exception text. -/
def fetch_solar_data (lat lon : ℚ) (response : HttpResult GooglePayload) :
    GoogleFetchResult :=
  match response with
  | .ok status payload =>
    if status = 200 then
      let sp := payload.solarPotential
      let monthly_data := googleMonthly sp.monthlyFlux
      { success := true
        error := none
        annual := some
          { flux := (monthly_data.map (fun m => m.flux)).sum
            max_array_panels := sp.maxArrayPanelsCount.getD 0
            max_array_area := sp.maxArrayAreaMeters2.getD 0
            max_sunshine_hours := sp.maxSunshineHoursPerYear.getD 0 }
        monthly := some monthly_data
        location := some (lat, lon) }
    else
      let error_msg :=
        if status = 404 then
          "Location not found or no solar data available for this location"
        else if status = 403 then
          "API key invalid or quota exceeded"
        else
          "API returned status code " ++ toString status
      { success := false
        error := some error_msg
        annual := none
        monthly := none
        location := none }
  | .exn msg =>
      { success := false
        error := some msg
        annual := none
        monthly := none
        location := none }

end GoogleSolarApiHandler

/-- `List.filterMap` of a guarded function over `List.range`: keeping the
indices below `n` of `List.range k` yields the mapped `List.range (min n k)`. -/
theorem filterMap_range_if {α : Type} (k n : Nat) (g : Nat → α) :
    (List.range k).filterMap (fun i => if i < n then some (g i) else none)
      = (List.range (min n k)).map g := by
  induction k with
  | zero => simp
  | succ k ih =>
    rw [List.range_succ, List.filterMap_append, ih]
    by_cases h : k < n
    · have h1 : min n (k + 1) = min n k + 1 := by omega
      have h2 : min n k = k := by omega
      rw [h1, List.range_succ, List.map_append]
      simp [h, h2]
    · have h1 : min n (k + 1) = min n k := by omega
      simp [h1, h]

/-- Evaluating `googleMonthly` away from the guard: it is the map of
`googleEntry` over the first `min (length mf) 12` indices. -/
theorem googleMonthly_eq (mf : List FluxEntry) :
    googleMonthly mf = (List.range (min mf.length 12)).map (googleEntry mf) :=
  filterMap_range_if 12 mf.length (googleEntry mf)

/-- `getD` of a map over `List.range` at an in-range index. -/
theorem getD_range_map {α : Type} (g : Nat → α) (m i : Nat) (d : α) (h : i < m) :
    ((List.range m).map g).getD i d = g i := by
  rw [List.getD_eq_getElem?_getD]
  simp [List.getElem?_map, List.getElem?_range, h]

/-- The NREL monthly series always has twelve entries: the loop runs over
the fixed twelve-name month list whatever the payload holds. -/
theorem nrelMonthly_length (p : NrelPayload) : (nrelMonthly p).length = 12 := by
  simp [nrelMonthly]

/-- The entry of the NREL monthly series at index `i < 12`. -/
theorem nrelMonthly_getD (p : NrelPayload) (i : Nat) (h : i < 12) :
    (nrelMonthly p).getD i default =
      { month := (monthNames.getD i "").capitalize
        month_num := i + 1
        ghi := p.avg_ghi.monthlyGet (monthNames.getD i "")
        dni := p.avg_dni.monthlyGet (monthNames.getD i "")
        dhi := p.avg_dhi.monthlyGet (monthNames.getD i "") } := by
  simp only [nrelMonthly]
  exact getD_range_map _ 12 i default h

/-- The Google monthly series has `min (length monthlyFlux) 12` entries. -/
theorem googleMonthly_length (mf : List FluxEntry) :
    (googleMonthly mf).length = min mf.length 12 := by
  rw [googleMonthly_eq]
  simp

/-- The entry of the Google monthly series at an in-range index. -/
theorem googleMonthly_getD (mf : List FluxEntry) (i : Nat)
    (h : i < min mf.length 12) :
    (googleMonthly mf).getD i default = googleEntry mf i := by
  rw [googleMonthly_eq]
  exact getD_range_map _ _ i default (by simpa using h)

/-- A sample NREL 200-payload whose `outputs` sub-objects are all empty:
no `annual` fields and no `monthly` mappings at all. -/
def emptyNrelPayload : NrelPayload :=
  ⟨⟨none, none⟩, ⟨none, none⟩, ⟨none, none⟩⟩

/-- A sample two-month `monthlyFlux` array. -/
def demoFlux : List FluxEntry :=
  [⟨some 5, some 10⟩, ⟨none, none⟩]

/-- C1 (counterexample): `calculate_energy_production` called with
`area_m2 = -5` does not fail — it returns the negative value `-1000`,
refuting the claim that such a call is rejected with `InvalidInput`. -/
theorem calc_energy_negative_area_counterexample :
    SolarCalculator.calculate_energy_production 1000 (-5)
        SolarCalculator.defaultEfficiency = -1000
    ∧ SolarCalculator.calculate_energy_production 1000 (-5)
        SolarCalculator.defaultEfficiency < 0 := by
  constructor <;>
    norm_num [SolarCalculator.calculate_energy_production,
      SolarCalculator.defaultEfficiency]

/-- C1 (amended): the energy-production calculation performs no input
validation: even when `area_m2 <= 0` or `irradiance < 0` it returns the
plain product `irradiance * area * efficiency` (negative or zero), and no
`InvalidInput` error path exists. -/
theorem calc_energy_no_input_validation (irradiance area efficiency : ℚ)
    (_h : area ≤ 0 ∨ irradiance < 0) :
    SolarCalculator.calculate_energy_production irradiance area efficiency
      = irradiance * area * efficiency := rfl

/-- C1 (witness): the amended claim at `irradiance = 1000`, `area = -5`. -/
theorem calc_energy_no_input_validation_witness :
    SolarCalculator.calculate_energy_production 1000 (-5)
        SolarCalculator.defaultEfficiency
      = 1000 * (-5) * SolarCalculator.defaultEfficiency :=
  calc_energy_no_input_validation 1000 (-5) SolarCalculator.defaultEfficiency
    (Or.inl (by norm_num))

/-- C6: for every irradiance, area and efficiency in (0, 1], the
energy-production calculation returns exactly
`irradiance * area * efficiency`, and the default efficiency used when the
argument is unspecified is 0.20. -/
theorem calc_energy_formula_and_default (irradiance area efficiency : ℚ)
    (_h1 : 0 < efficiency) (_h2 : efficiency ≤ 1) :
    SolarCalculator.calculate_energy_production irradiance area efficiency
        = irradiance * area * efficiency
    ∧ SolarCalculator.calculate_energy_production irradiance area
        SolarCalculator.defaultEfficiency = irradiance * area * (20 / 100) :=
  ⟨rfl, rfl⟩

/-- C6 (witness): the formula at `irradiance = 3`, `area = 4`,
`efficiency = 1/2`. -/
theorem calc_energy_formula_and_default_witness :
    SolarCalculator.calculate_energy_production 3 4 (1/2) = 3 * 4 * (1/2)
    ∧ SolarCalculator.calculate_energy_production 3 4
        SolarCalculator.defaultEfficiency = 3 * 4 * (20 / 100) :=
  calc_energy_formula_and_default 3 4 (1/2) (by norm_num) (by norm_num)

/-- C7 (counterexample): monotonicity of `energy_kwh` in `area_m2` fails
for a fixed negative irradiance: at `irradiance = -1` and the default
efficiency, the energy at area 1 exceeds the energy at area 2. -/
theorem energy_monotone_counterexample :
    ¬ (SolarCalculator.calculate_energy_production (-1) 1
          SolarCalculator.defaultEfficiency
        ≤ SolarCalculator.calculate_energy_production (-1) 2
          SolarCalculator.defaultEfficiency) := by
  norm_num [SolarCalculator.calculate_energy_production,
    SolarCalculator.defaultEfficiency]

/-- C7 (amended): whenever `irradiance * efficiency >= 0`, `energy_kwh`
is monotonically increasing in `area_m2` (strictly so when
`irradiance * efficiency > 0`), and for `irradiance = 0` the result is 0
for every area. -/
theorem energy_monotone_amended (irradiance efficiency a1 a2 a : ℚ)
    (h0 : 0 ≤ irradiance * efficiency) (h12 : a1 ≤ a2) :
    SolarCalculator.calculate_energy_production irradiance a1 efficiency
        ≤ SolarCalculator.calculate_energy_production irradiance a2 efficiency
    ∧ (0 < irradiance * efficiency → a1 < a2 →
        SolarCalculator.calculate_energy_production irradiance a1 efficiency
          < SolarCalculator.calculate_energy_production irradiance a2 efficiency)
    ∧ SolarCalculator.calculate_energy_production 0 a efficiency = 0 := by
  refine ⟨?_, ?_, ?_⟩
  · have h := mul_le_mul_of_nonneg_left h12 h0
    simp only [SolarCalculator.calculate_energy_production]
    nlinarith
  · intro hpos hlt
    have h := mul_lt_mul_of_pos_left hlt hpos
    simp only [SolarCalculator.calculate_energy_production]
    nlinarith
  · simp [SolarCalculator.calculate_energy_production]

/-- C7 (witness): the amended claim at `irradiance = 2`,
`efficiency = 1/2`, areas 1 and 3. -/
theorem energy_monotone_amended_witness :
    SolarCalculator.calculate_energy_production 2 1 (1/2)
        ≤ SolarCalculator.calculate_energy_production 2 3 (1/2)
    ∧ (0 < (2 : ℚ) * (1/2) → (1 : ℚ) < 3 →
        SolarCalculator.calculate_energy_production 2 1 (1/2)
          < SolarCalculator.calculate_energy_production 2 3 (1/2))
    ∧ SolarCalculator.calculate_energy_production 0 7 (1/2) = 0 :=
  energy_monotone_amended 2 (1/2) 1 3 7 (by norm_num) (by norm_num)

/-- C5: the key-validation operation of each provider client is a total
boolean function of the probe outcome, and any exception raised by the
probe request (network failure included) is reported as `false` —
invalid/unreachable — rather than propagated. -/
theorem validate_api_key_never_throws (r : HttpResult Unit) (msg : String) :
    NRELApiHandler.validate_api_key (.exn msg) = false
    ∧ GoogleSolarApiHandler.validate_api_key (.exn msg) = false
    ∧ (NRELApiHandler.validate_api_key r = true
        ∨ NRELApiHandler.validate_api_key r = false)
    ∧ (GoogleSolarApiHandler.validate_api_key r = true
        ∨ GoogleSolarApiHandler.validate_api_key r = false) :=
  ⟨rfl, rfl, Bool.eq_false_or_eq_true _, Bool.eq_false_or_eq_true _⟩

/-- C10: the Google Solar key validation accepts HTTP 403 — the
provider's auth-failure/quota-exceeded status — as well as HTTP 200, so a
probe answered with 403 (an unauthorized key) is reported as valid. -/
theorem google_validate_accepts_403 :
    GoogleSolarApiHandler.validate_api_key (.ok 403 ()) = true
    ∧ GoogleSolarApiHandler.validate_api_key (.ok 200 ()) = true :=
  ⟨rfl, rfl⟩

/-- C2 (counterexample): normalizing a 200 NREL payload whose required
annual totals are all absent does not yield a `MalformedResponse`-style
failure — the fetch reports success and returns a dataset whose annual
totals have been silently zero-filled. -/
theorem nrel_missing_annual_zero_fill_counterexample :
    (NRELApiHandler.fetch_solar_data 0 0 (.ok 200 emptyNrelPayload)).success = true
    ∧ (NRELApiHandler.fetch_solar_data 0 0 (.ok 200 emptyNrelPayload)).error = none
    ∧ (NRELApiHandler.fetch_solar_data 0 0 (.ok 200 emptyNrelPayload)).annual
        = some ⟨0, 0, 0⟩ := by
  refine ⟨rfl, rfl, rfl⟩

/-- C2 (amended): normalization never reports a malformed response for a
missing annual-total field; on any 200 payload whose `avg_ghi.annual` is
absent (or non-numeric), the NREL fetch reports success and zero-fills
that annual total to 0 via `.get('annual', 0)`. -/
theorem nrel_missing_annual_zero_fill (lat lon : ℚ) (p : NrelPayload)
    (h : p.avg_ghi.annual = none) :
    (NRELApiHandler.fetch_solar_data lat lon (.ok 200 p)).success = true
    ∧ (NRELApiHandler.fetch_solar_data lat lon (.ok 200 p)).annual
        = some ⟨0, p.avg_dni.annual.getD 0, p.avg_dhi.annual.getD 0⟩ := by
  simp [NRELApiHandler.fetch_solar_data, h]

/-- C2 (witness): the amended claim at the all-empty payload. -/
theorem nrel_missing_annual_zero_fill_witness :
    (NRELApiHandler.fetch_solar_data 0 0 (.ok 200 emptyNrelPayload)).success = true
    ∧ (NRELApiHandler.fetch_solar_data 0 0 (.ok 200 emptyNrelPayload)).annual
        = some ⟨0, emptyNrelPayload.avg_dni.annual.getD 0,
                emptyNrelPayload.avg_dhi.annual.getD 0⟩ :=
  nrel_missing_annual_zero_fill 0 0 emptyNrelPayload rfl

/-- C3 (counterexample): in a payload whose `avg_ghi` carries no monthly
mapping at all, the `jan` bucket is missing, yet the normalized series
still contains an entry for month 1 — with its value defaulted to 0 — and
has all twelve months, refuting the claim that a missing bucket is marked
absent. -/
theorem nrel_missing_month_present_counterexample :
    (emptyNrelPayload.avg_ghi.monthly.getD []).lookup "jan" = none
    ∧ (nrelMonthly emptyNrelPayload).length = 12
    ∧ ((nrelMonthly emptyNrelPayload).getD 0 default).month_num = 1
    ∧ ((nrelMonthly emptyNrelPayload).getD 0 default).ghi = 0 := by
  refine ⟨rfl, rfl, rfl, rfl⟩

/-- C3 (amended): the NREL normalizer always emits all twelve months;
when a named monthly bucket is missing from the provider mapping, the
corresponding month is still present in the series with its value
defaulted to 0 through `.get(month, 0)` — it is never marked absent. -/
theorem nrel_missing_month_zero_fill (p : NrelPayload) (i : Nat)
    (h : i < 12)
    (hm : ((p.avg_ghi.monthly.getD []).lookup (monthNames.getD i "")) = none) :
    (nrelMonthly p).length = 12
    ∧ ((nrelMonthly p).getD i default).month_num = i + 1
    ∧ ((nrelMonthly p).getD i default).ghi = 0 := by
  refine ⟨nrelMonthly_length p, ?_, ?_⟩
  · rw [nrelMonthly_getD p i h]
  · rw [nrelMonthly_getD p i h]
    show ((p.avg_ghi.monthly.getD []).lookup (monthNames.getD i "")).getD 0 = 0
    rw [hm]
    rfl

/-- C3 (witness): the amended claim at the all-empty payload, month 1. -/
theorem nrel_missing_month_zero_fill_witness :
    (nrelMonthly emptyNrelPayload).length = 12
    ∧ ((nrelMonthly emptyNrelPayload).getD 0 default).month_num = 0 + 1
    ∧ ((nrelMonthly emptyNrelPayload).getD 0 default).ghi = 0 :=
  nrel_missing_month_zero_fill emptyNrelPayload 0 (by decide) rfl

/-- C4: for a monthly-flux array of length n, the Google normalizer
produces a series of length `min n 12` whose entry at index i carries
`month_num = i + 1` (index 0 = January) and the flux of the i-th array
element; every emitted month number is at most `min n 12`, so when n < 12
the trailing months are absent from the series, not zero-filled. -/
theorem google_monthly_positional_alignment (mf : List FluxEntry) :
    (googleMonthly mf).length = min mf.length 12
    ∧ (∀ i, i < min mf.length 12 →
        ((googleMonthly mf).getD i default).month_num = i + 1
        ∧ ((googleMonthly mf).getD i default).flux
            = ((mf.getD i default).flux).getD 0)
    ∧ (∀ e ∈ googleMonthly mf,
        1 ≤ e.month_num ∧ e.month_num ≤ min mf.length 12) := by
  refine ⟨googleMonthly_length mf, ?_, ?_⟩
  · intro i h
    rw [googleMonthly_getD mf i h]
    exact ⟨rfl, rfl⟩
  · intro e he
    rw [googleMonthly_eq] at he
    simp only [List.mem_map, List.mem_range] at he
    obtain ⟨i, hi, rfl⟩ := he
    simp only [googleEntry]
    omega

/-- C4 (witness): the alignment at the sample two-month flux array. -/
theorem google_monthly_positional_alignment_witness :
    (googleMonthly demoFlux).length = min demoFlux.length 12
    ∧ (((googleMonthly demoFlux).getD 0 default).month_num = 0 + 1
        ∧ ((googleMonthly demoFlux).getD 0 default).flux
            = ((demoFlux.getD 0 default).flux).getD 0)
    ∧ (1 ≤ ((googleMonthly demoFlux).getD 0 default).month_num
        ∧ ((googleMonthly demoFlux).getD 0 default).month_num
            ≤ min demoFlux.length 12) :=
  ⟨(google_monthly_positional_alignment demoFlux).1,
   (google_monthly_positional_alignment demoFlux).2.1 0 (by decide),
   (google_monthly_positional_alignment demoFlux).2.2 _ (by decide)⟩

/-- C8: every monthly series produced by a successful fetch satisfies the
invariant: the NREL fetch always yields exactly 12 entries with
`month_num = i + 1` at index i (hence unique month indices in 1..12 in
ascending order); the Google fetch yields at most 12 entries, also with
`month_num = i + 1` at index i and every month number in 1..12; and a
12-element `monthlyFlux` array yields a series of length exactly 12. -/
theorem monthly_series_invariant (lat lon : ℚ) (p : NrelPayload)
    (gp : GooglePayload) :
    (NRELApiHandler.fetch_solar_data lat lon (.ok 200 p)).monthly
        = some (nrelMonthly p)
    ∧ (nrelMonthly p).length = 12
    ∧ (∀ i, i < 12 → ((nrelMonthly p).getD i default).month_num = i + 1)
    ∧ (GoogleSolarApiHandler.fetch_solar_data lat lon (.ok 200 gp)).monthly
        = some (googleMonthly gp.solarPotential.monthlyFlux)
    ∧ (googleMonthly gp.solarPotential.monthlyFlux).length ≤ 12
    ∧ (∀ i, i < (googleMonthly gp.solarPotential.monthlyFlux).length →
        ((googleMonthly gp.solarPotential.monthlyFlux).getD i default).month_num
          = i + 1
        ∧ 1 ≤ ((googleMonthly gp.solarPotential.monthlyFlux).getD i default).month_num
        ∧ ((googleMonthly gp.solarPotential.monthlyFlux).getD i default).month_num ≤ 12)
    ∧ (gp.solarPotential.monthlyFlux.length = 12 →
        (googleMonthly gp.solarPotential.monthlyFlux).length = 12) := by
  refine ⟨rfl, nrelMonthly_length p, ?_, rfl, ?_, ?_, ?_⟩
  · intro i h
    rw [nrelMonthly_getD p i h]
  · rw [googleMonthly_length]
    omega
  · intro i h
    rw [googleMonthly_length] at h
    rw [googleMonthly_getD _ i h]
    refine ⟨rfl, ?_, ?_⟩
    · show 1 ≤ i + 1
      omega
    · show i + 1 ≤ 12
      omega
  · intro h
    rw [googleMonthly_length, h]
    omega

/-- C8 (witness): the invariant at the all-empty NREL payload and a
12-element flux array. -/
theorem monthly_series_invariant_witness :
    (NRELApiHandler.fetch_solar_data 0 0 (.ok 200 emptyNrelPayload)).monthly
        = some (nrelMonthly emptyNrelPayload)
    ∧ ((nrelMonthly emptyNrelPayload).getD 0 default).month_num = 0 + 1
    ∧ (googleMonthly (List.replicate 12 (⟨some 1, some 2⟩ : FluxEntry))).length
        = 12 := by
  have h := monthly_series_invariant 0 0 emptyNrelPayload
    ⟨⟨List.replicate 12 ⟨some 1, some 2⟩, none, none, none⟩⟩
  exact ⟨h.1, h.2.2.1 0 (by decide), h.2.2.2.2.2.2 (by decide)⟩

/-- C9: each provider's fetch is total over every HTTP outcome — success,
non-200 status, timeout or raised exception — always yielding a result
with a boolean `success`, and whenever `success` is false an `error`
string is present. -/
theorem fetch_is_total (lat lon : ℚ) (rn : HttpResult NrelPayload)
    (rg : HttpResult GooglePayload) :
    ((NRELApiHandler.fetch_solar_data lat lon rn).success = true
      ∨ (NRELApiHandler.fetch_solar_data lat lon rn).success = false)
    ∧ ((NRELApiHandler.fetch_solar_data lat lon rn).success = false →
        ((NRELApiHandler.fetch_solar_data lat lon rn).error).isSome = true)
    ∧ ((GoogleSolarApiHandler.fetch_solar_data lat lon rg).success = true
      ∨ (GoogleSolarApiHandler.fetch_solar_data lat lon rg).success = false)
    ∧ ((GoogleSolarApiHandler.fetch_solar_data lat lon rg).success = false →
        ((GoogleSolarApiHandler.fetch_solar_data lat lon rg).error).isSome = true) := by
  refine ⟨Bool.eq_false_or_eq_true _, ?_, Bool.eq_false_or_eq_true _, ?_⟩
  · cases rn with
    | ok status payload =>
      by_cases h : status = 200 <;>
        simp [NRELApiHandler.fetch_solar_data, h]
    | exn msg => intro; rfl
  · cases rg with
    | ok status payload =>
      by_cases h : status = 200 <;>
        simp [GoogleSolarApiHandler.fetch_solar_data, h]
    | exn msg => intro; rfl

/-- C9 (witness): totality at a raised-exception outcome for both
providers. -/
theorem fetch_is_total_witness :
    ((NRELApiHandler.fetch_solar_data 0 0 (.exn "timeout")).error).isSome = true
    ∧ ((GoogleSolarApiHandler.fetch_solar_data 0 0 (.exn "timeout")).error).isSome
        = true :=
  ⟨(fetch_is_total 0 0 (.exn "timeout") (.exn "timeout")).2.1 rfl,
   (fetch_is_total 0 0 (.exn "timeout") (.exn "timeout")).2.2.2 rfl⟩
